import Mathlib

/-!
Verification of the basketball prediction microservice
(`src/prediction/` in the repository) against its natural-language
specification.

The embedding below is a shallow model of the Python code:

* Machine arithmetic: Python floats are modelled exactly over `ℚ`
  (every arithmetic operation the relevant code performs is a grid of
  additions, multiplications and divisions by constants; no claim under
  study depends on IEEE rounding).  Python `int` is modelled by `ℤ`.
* Stateful code (Redis cache, SQLAlchemy session) is modelled by explicit
  state passing; the observable side effects of one request are collected
  in an `Effects` record.
* Fallible code returns `Except`/`Option`.  A Python exception that
  escapes a function is an `Except.error`.
-/

namespace BballPrediction

/-! ## Upstream stats client — `src/prediction/stats_client.py`

`stats_client.py` uses `asyncio.sleep` (lines 44 and 52) but never
imports `asyncio`; evaluating the name therefore raises `NameError` at
those two program points.  The embedding keeps this behaviour:

* In `get_player_stats`, the sleep on the HTTP-429 branch (line 44) sits
  inside the `try:` block, so the `NameError` it raises is caught by the
  generic `except Exception` handler (line 55) which returns `None` —
  the loop never reaches a second attempt after a 429.
* The sleep on the timeout branch (line 52) sits inside the
  `except httpx.TimeoutException` handler; an exception raised there is
  not caught by the sibling handlers, so the `NameError` propagates to
  the caller whenever `attempt < retries - 1`.
-/

/-- One possible outcome of a single upstream HTTP attempt.
`ok none` models an HTTP 200 whose JSON body is falsy (`{}`/`[]`/null),
which the client treats as the explicit "no data" sentinel. -/
inductive UpstreamEvent (α : Type) where
  | ok (body : Option α)
  | rateLimited
  | httpError (code : Nat)
  | timeout
  | connectionError
deriving DecidableEq

/-- A Python exception escaping a modelled function. -/
inductive PyExc where
  /-- `NameError: name 'asyncio' is not defined` (missing import in
  `stats_client.py`). -/
  | nameErrorAsyncio
deriving DecidableEq

/-- Per-player season averages as returned by the upstream stats
service; every key of the JSON mapping may be absent. -/
structure StatsData where
  ppg : Option ℚ := none
  apg : Option ℚ := none
  rpg : Option ℚ := none
  gamesPlayed : Option ℤ := none
  fgPct : Option ℚ := none
  ftPct : Option ℚ := none
  minutesPerGame : Option ℚ := none
  stealsPerGame : Option ℚ := none
  blocksPerGame : Option ℚ := none
  turnoversPerGame : Option ℚ := none
deriving DecidableEq

/-- Loop body of `StatsServiceClient.get_player_stats` (lines 27–59).
`trace n` is the outcome of the HTTP attempt with 0-based index `n`;
`fuel` is the number of loop iterations left.  Note that with the
missing `asyncio` import every branch exits the loop. -/
def get_player_stats_loop (trace : Nat → UpstreamEvent StatsData) (retries : Nat) :
    Nat → Nat → Except PyExc (Option StatsData)
  | 0, _ => .ok none
  | _ + 1, attempt =>
    match trace attempt with
    | .ok none => .ok none
    | .ok (some d) => .ok (some d)
    | .rateLimited =>
        -- line 44: `await asyncio.sleep(wait_time)` raises NameError inside
        -- the try block; `except Exception` (line 55) catches it → None
        .ok none
    | .httpError _ => .ok none
    | .timeout =>
        if attempt < retries - 1 then
          -- line 52: `await asyncio.sleep(1)` raises NameError inside the
          -- timeout handler; nothing catches it → propagates to the caller
          .error .nameErrorAsyncio
        else .ok none
    | .connectionError => .ok none

/-- `StatsServiceClient.get_player_stats(player_name, retries=3)`. -/
def get_player_stats (trace : Nat → UpstreamEvent StatsData) (retries : Nat := 3) :
    Except PyExc (Option StatsData) :=
  get_player_stats_loop trace retries retries 0

/-- One game line of the upstream game-log response; keys may be absent. -/
structure GameData where
  date : Option String := none
  opponent : Option String := none
  pts : Option ℚ := none
  ast : Option ℚ := none
  reb : Option ℚ := none
  minPlayed : Option ℚ := none
  fgm : Option ℚ := none
  fga : Option ℚ := none
  ftm : Option ℚ := none
  fta : Option ℚ := none
  stl : Option ℚ := none
  blk : Option ℚ := none
  tov : Option ℚ := none
deriving DecidableEq

/-- `StatsServiceClient.get_player_game_log` (lines 61–95): one single
attempt, no retry; every failure branch returns `None` and no branch
raises (the function never touches `asyncio`). -/
def get_player_game_log (ev : UpstreamEvent (List GameData)) :
    Except PyExc (Option (List GameData)) :=
  match ev with
  | .ok none => .ok none
  | .ok (some l) => if l.isEmpty then .ok none else .ok (some l)
  | .rateLimited => .ok none
  | .httpError _ => .ok none
  | .timeout => .ok none
  | .connectionError => .ok none

/-! ## Result cache — `src/prediction/cache.py`

Redis is modelled as an association list from key to (value, absolute
expiry time); time is a `Nat` of seconds.  `setex key ttl v` stores the
value with expiry `now + ttl`; a `get` at time `t` sees the key iff
`t < expiry`. -/

/-- `CACHE_TTL` (cache.py line 17). -/
def CACHE_TTL : Nat := 3600

/-- The record built in step 6 of
`PredictionService.generate_prediction_for_player`
(prediction_service.py lines 104–113); this is what is persisted and
cached. -/
structure PredictionRecord where
  player_name : String
  pts : ℚ
  ast : ℚ
  reb : ℚ
  confidence : ℚ
  created_at : Nat
deriving DecidableEq

/-- The modelled Redis database 1: (key, value, absolute expiry). -/
abbrev CacheStore := List (String × PredictionRecord × Nat)

/-- Python's `str.lower()` on the ASCII player names in play, written as
a structural map over the character list so that concrete instances
compute. -/
def lowerStr (s : String) : String :=
  ⟨s.data.map Char.toLower⟩

/-- `PredictionCache._get_cache_key` (cache.py lines 33–36): the literal
"prediction:" followed by the lowercased player name. -/
def cache_key (player_name : String) : String :=
  "prediction:" ++ lowerStr player_name

/-- `PredictionCache.get` (cache.py lines 38–53) at time `now`. -/
def cache_get (store : CacheStore) (now : Nat) (player_name : String) :
    Option PredictionRecord :=
  match store.find? (fun e => e.1 = cache_key player_name) with
  | some (_, v, expiry) => if now < expiry then some v else none
  | none => none

/-- `PredictionCache.set` (cache.py lines 55–69) at time `now`:
`setex` overwrites any previous value and resets the expiry. -/
def cache_set (store : CacheStore) (now : Nat) (player_name : String)
    (v : PredictionRecord) (ttl : Nat := CACHE_TTL) : CacheStore :=
  (cache_key player_name, v, now + ttl) ::
    store.filter (fun e => e.1 ≠ cache_key player_name)

/-- `PredictionCache.delete` (cache.py lines 71–81). -/
def cache_delete (store : CacheStore) (player_name : String) : CacheStore :=
  store.filter (fun e => e.1 ≠ cache_key player_name)

/-! ## Feature transform and scoring —
`src/prediction/prediction_service.py` and `src/prediction/app.py` -/

/-- The pydantic `PlayerStats` model (prediction_service.py lines 18–29,
identical field-for-field to the one in app.py lines 76–87); field
default values mirror the pydantic defaults. -/
structure PlayerStats where
  ppg : ℚ
  apg : ℚ
  rpg : ℚ
  fgPct : ℚ := 0.45
  ftPct : ℚ := 0.75
  gamesPlayed : ℤ
  minutesPerGame : ℚ := 30
  stealsPerGame : ℚ := 1
  blocksPerGame : ℚ := 0.5
  turnoversPerGame : ℚ := 2
deriving DecidableEq

/-- `normalize_stats` (app.py lines 110–127); the identical inline
feature array of `PredictionService._predict_performance`
(prediction_service.py lines 152–163). -/
def normalize_stats (s : PlayerStats) : List ℚ :=
  [ s.ppg / 30,
    s.apg / 10,
    s.rpg / 12,
    s.fgPct,
    s.ftPct,
    (s.gamesPlayed : ℚ) / 82,
    s.minutesPerGame / 48,
    s.stealsPerGame / 3,
    s.blocksPerGame / 3,
    s.turnoversPerGame / 5 ]

/-- The confidence formula of `_predict_performance`
(prediction_service.py line 182, identical in app.py line 155). -/
def confidence_of (gamesPlayed : ℤ) : ℚ :=
  min 0.95 (0.7 + ((gamesPlayed : ℚ) / 82) * 0.25)

/-- The neural network is untrained and architecture-irrelevant here; it
is abstracted as an arbitrary function from the 10-feature vector to the
3 raw outputs (`self.model(x)` / `model(x)`). -/
abbrev Model := List ℚ → ℚ × ℚ × ℚ

/-- `_predict_performance` (prediction_service.py lines 143–184, same
computation as `predict_performance` in app.py lines 129–157):
returns (points, assists, rebounds, confidence). -/
def predict_performance (model : Model) (s : PlayerStats) (home_game : Bool) :
    ℚ × ℚ × ℚ × ℚ :=
  let features := normalize_stats s
  let home_factor : ℚ := if home_game then 1.05 else 0.95
  let out := model features
  ( out.1 * 30 * home_factor,
    out.2.1 * 10 * home_factor,
    out.2.2 * 12 * home_factor,
    confidence_of s.gamesPlayed )

/-- `PredictionService._convert_stats_to_model_input`
(prediction_service.py lines 124–141): `ppg`/`apg`/`rpg`/`gamesPlayed`
come from the upstream mapping with fallback 0; the remaining six fields
are passed as literal constants, unconditionally. -/
def convert_stats_to_model_input (d : StatsData) : PlayerStats :=
  { ppg := d.ppg.getD 0,
    apg := d.apg.getD 0,
    rpg := d.rpg.getD 0,
    gamesPlayed := d.gamesPlayed.getD 0,
    fgPct := 0.45,
    ftPct := 0.75,
    minutesPerGame := 30,
    stealsPerGame := 1,
    blocksPerGame := 0.5,
    turnoversPerGame := 2 }

/-- Python's `round(x, n)` modelled over `ℚ` via Mathlib's `round`
(nearest integer; the models differ only on exact ties, where Python
rounds half-to-even — no claim under study depends on tie behaviour). -/
def roundTo (digits : Nat) (q : ℚ) : ℚ :=
  (round (q * 10 ^ digits) : ℚ) / 10 ^ digits

/-! ## Prediction orchestrator —
`PredictionService.generate_prediction_for_player`
(prediction_service.py lines 39–122)

The environment of one request fixes what the upstream call would
return and whether the database insert succeeds.  The fire-and-forget
background game-log collection (step 2b) runs on a separate task and
touches only the game-log table; it is outside this per-request model
(its own behaviour is modelled separately below). -/

/-- Exceptions that `generate_prediction_for_player` can let escape. -/
inductive OrchError where
  /-- an exception raised by `stats_client.get_player_stats` (awaited at
  line 67 with no surrounding try) -/
  | upstreamExc (e : PyExc)
  /-- the database error re-raised by `_save_to_database` (line 201),
  not caught at line 116 -/
  | dbError
deriving DecidableEq

/-- Request environment: outcome of the (at most one) upstream stats
call, the current network weights, and whether the `PERSIST` insert
succeeds. -/
structure Env where
  upstream : Except PyExc (Option StatsData)
  model : Model
  dbInsertOk : Bool

/-- Mutable state visible to one request: the Redis cache (db 1) and the
`player_predictions` table. -/
structure St where
  cache : CacheStore
  db : List PredictionRecord
deriving DecidableEq

/-- Observable side effects of one request. -/
structure Effects where
  statsFetches : Nat
  dbWrites : Nat
  cacheWrites : Nat
deriving DecidableEq

/-- Steps 4–6 of `generate_prediction_for_player`: convert, score with
`home_game=True` (line 97), round (`round(x,1)` for stats, `round(x,2)`
for confidence, lines 107–111) and stamp with the current time. -/
def build_prediction_record (model : Model) (name : String) (now : Nat)
    (s : PlayerStats) (home_game : Bool) : PredictionRecord :=
  let out := predict_performance model s home_game
  { player_name := name,
    pts := roundTo 1 out.1,
    ast := roundTo 1 out.2.1,
    reb := roundTo 1 out.2.2.1,
    confidence := roundTo 2 out.2.2.2,
    created_at := now }

/-- Steps 2–8 of `generate_prediction_for_player` once the cache has
been bypassed or missed: fetch, handle unavailability, build the
record, persist (rolling back and re-raising on failure) and cache. -/
def generate_fetch (env : Env) (now : Nat) (st : St) (name : String) :
    Except OrchError (Option PredictionRecord) × St × Effects :=
  match env.upstream with
  | .error e => (.error (.upstreamExc e), st, ⟨1, 0, 0⟩)
  | .ok none =>
      -- step 3: fallback, "Skipping prediction" (lines 82–84)
      (.ok none, st, ⟨1, 0, 0⟩)
  | .ok (some d) =>
      let s := convert_stats_to_model_input d
      let newRec := build_prediction_record env.model name now s true
      if env.dbInsertOk then
        -- steps 7 and 8: insert committed, then PredictionCache.set
        (.ok (some newRec),
         ⟨cache_set st.cache now name newRec, st.db ++ [newRec]⟩,
         ⟨1, 1, 1⟩)
      else
        -- `_save_to_database` rolls back and re-raises (lines 198–201);
        -- line 116 is not inside a try, so the exception propagates and
        -- the cache write at line 119 is never reached
        (.error .dbError, st, ⟨1, 0, 0⟩)

/-- `PredictionService.generate_prediction_for_player` (lines 39–122):
step 1 consults the cache unless `force_refresh` is set. -/
def generate_prediction_for_player (env : Env) (now : Nat) (st : St)
    (name : String) (force_refresh : Bool) :
    Except OrchError (Option PredictionRecord) × St × Effects :=
  match force_refresh, cache_get st.cache now name with
  | false, some r => (.ok (some r), st, ⟨0, 0, 0⟩)
  | false, none => generate_fetch env now st name
  | true, _ => generate_fetch env now st name

/-- The `/predictions/{player_name}/refresh` handler
(app.py lines 385–417): `PredictionCache.delete`, then the orchestrator
with `force_refresh=True`. -/
def refresh_player_prediction (env : Env) (now : Nat) (st : St) (name : String) :
    Except OrchError (Option PredictionRecord) × St × Effects :=
  generate_prediction_for_player env now ⟨cache_delete st.cache name, st.db⟩ name true

/-! ## Direct prediction endpoints — app.py -/

/-- `PredictionRequest` (app.py lines 89–93). -/
structure PredictionRequest where
  playerName : String
  currentStats : PlayerStats
  homeGame : Bool := true
deriving DecidableEq

/-- `PredictionResponse` (app.py lines 95–101) without the constant
`model` tag. -/
structure PredictionResponse where
  playerName : String
  predictedPoints : ℚ
  predictedAssists : ℚ
  predictedRebounds : ℚ
  confidence : ℚ
deriving DecidableEq

/-- The `POST /predict` handler `predict_player_performance`
(app.py lines 280–303): scores with the caller-supplied `homeGame`. -/
def predict_endpoint (model : Model) (req : PredictionRequest) : PredictionResponse :=
  let out := predict_performance model req.currentStats req.homeGame
  { playerName := req.playerName,
    predictedPoints := roundTo 1 out.1,
    predictedAssists := roundTo 1 out.2.1,
    predictedRebounds := roundTo 1 out.2.2.1,
    confidence := roundTo 2 out.2.2.2 }

/-- The `POST /predict/batch` handler `predict_batch`
(app.py lines 305–331); in this pure model no per-entry exception can
occur, so every entry is scored. -/
def predict_batch (model : Model) (reqs : List PredictionRequest) :
    List PredictionResponse :=
  reqs.map (predict_endpoint model)

/-! ## Training-data collector —
`DataCollector.collect_and_store_game_logs`
(data_collector.py lines 18–77) and the `game_logs` table
(database.py lines 49–76)

`SessionLocal` is created with `autoflush=False` (database.py line 21)
and the table has no uniqueness constraint on (player_name, game_date),
so the duplicate check at lines 40–43 queries only rows already
committed to the database — objects merely `db.add`-ed earlier in the
same loop are invisible to it.  The embedding keeps the pending adds in
a separate list and commits them only at the end. -/

/-- A row of the `game_logs` table. -/
structure GameLogRow where
  player_name : String
  game_date : Option String
  opponent : String
  points : ℚ
  assists : ℚ
  rebounds : ℚ
  minutes : ℚ
  fgm : ℚ
  fga : ℚ
  ftm : ℚ
  fta : ℚ
  steals : ℚ
  blocks : ℚ
  turnovers : ℚ
  is_home : ℤ
deriving DecidableEq

/-- The row constructed at data_collector.py lines 49–65. -/
def mkGameLogRow (name : String) (g : GameData) : GameLogRow :=
  { player_name := name,
    game_date := g.date,
    opponent := g.opponent.getD "Unknown",
    points := g.pts.getD 0,
    assists := g.ast.getD 0,
    rebounds := g.reb.getD 0,
    minutes := g.minPlayed.getD 0,
    fgm := g.fgm.getD 0,
    fga := g.fga.getD 0,
    ftm := g.ftm.getD 0,
    fta := g.fta.getD 0,
    steals := g.stl.getD 0,
    blocks := g.blk.getD 0,
    turnovers := g.tov.getD 0,
    is_home := 1 }

/-- The duplicate check at data_collector.py lines 40–43, evaluated
against the committed table only (`autoflush=False`). -/
def gamelog_exists (db : List GameLogRow) (name : String) (date : Option String) : Bool :=
  db.any (fun r => r.player_name = name ∧ r.game_date = date)

/-- `DataCollector.collect_and_store_game_logs`: `fetched` is the value
returned by `stats_client.get_player_game_log`; the result is the
committed table together with the returned `stored_count`. -/
def collect_and_store_game_logs (fetched : Except PyExc (Option (List GameData)))
    (db : List GameLogRow) (name : String) : List GameLogRow × Nat :=
  match fetched with
  | .error _ => (db, 0)        -- `except Exception` → rollback, return 0
  | .ok none => (db, 0)        -- "No game logs available" → return 0
  | .ok (some games) =>
      let step := fun (acc : List GameLogRow × Nat) (g : GameData) =>
        if gamelog_exists db name g.date then acc
        else (acc.1 ++ [mkGameLogRow name g], acc.2 + 1)
      let pending := games.foldl step ([], 0)
      (db ++ pending.1, pending.2)   -- db.commit() at line 70

/-- The §3 uniqueness invariant: at most one `game_logs` row per
(player name, game date). -/
def gamelog_unique (db : List GameLogRow) : Prop :=
  db.Pairwise (fun a b => ¬(a.player_name = b.player_name ∧ a.game_date = b.game_date))

instance : DecidablePred gamelog_unique := fun db =>
  List.instDecidablePairwise db

/-! ## Concrete sample data used by counterexamples and witnesses -/

/-- A sample upstream season line (only the four keys the stats service
actually sends). -/
def sampleStats : StatsData :=
  { ppg := some 27, apg := some 7, rpg := some 8, gamesPlayed := some 70 }

/-- HTTP attempt trace of §8's retry scenario: 429 on attempts 0 and 1,
then 200 with a non-empty body. -/
def retryTrace : Nat → UpstreamEvent StatsData
  | 0 => .rateLimited
  | 1 => .rateLimited
  | _ => .ok (some sampleStats)

/-! ## Claims C1 and C2 — stats-client error handling and retry -/

/-- C1: the claim states that `get_player_stats` returns `None` and
never raises on every upstream failure, and likewise
`get_player_game_log`.  The code refutes the first half: because
`stats_client.py` never imports `asyncio`, a timeout on any non-final
attempt raises `NameError` from the `except` handler (line 52) and the
exception escapes to the caller.  `get_player_game_log` indeed never
raises.  This theorem evaluates the code at the failing input (a single
timeout on attempt 0 with the default `retries=3`) and proves the
game-log half. -/
theorem C1_stats_client_timeout_raises :
    get_player_stats (fun _ => UpstreamEvent.timeout) 3 = .error .nameErrorAsyncio ∧
    ∀ ev : UpstreamEvent (List GameData), ∃ r, get_player_game_log ev = .ok r := by
  refine ⟨rfl, ?_⟩
  intro ev
  cases ev with
  | ok body =>
      cases body with
      | none => exact ⟨none, rfl⟩
      | some l =>
          dsimp [get_player_game_log]
          split
          · exact ⟨none, rfl⟩
          · exact ⟨some l, rfl⟩
  | rateLimited => exact ⟨none, rfl⟩
  | httpError code => exact ⟨none, rfl⟩
  | timeout => exact ⟨none, rfl⟩
  | connectionError => exact ⟨none, rfl⟩

/-- C2: the claim states that with 429, 429, then 200+body,
`get_player_stats` retries with exponential backoff and returns the
parsed body.  In the code, the backoff sleep at line 44 raises
`NameError` (missing `asyncio` import) inside the `try` block; the
generic `except Exception` handler catches it and returns `None`, so
the first 429 already ends the call: no retry, no sleep, and the parsed
body of attempt 2 is never seen. -/
theorem C2_rate_limit_no_retry :
    get_player_stats retryTrace 3 = .ok none ∧
    get_player_stats retryTrace 3 ≠ .ok (some sampleStats) := by
  have h : get_player_stats retryTrace 3 = .ok none := rfl
  refine ⟨h, ?_⟩
  rw [h]
  simp

/-! ## Claim C5 — feature transform -/

/-- C5: for every `PlayerStats` value the feature transform produces
exactly 10 numbers, in the fixed order
[ppg/30, apg/10, rpg/12, fgPct, ftPct, gamesPlayed/82,
minutesPerGame/48, stealsPerGame/3, blocksPerGame/3,
turnoversPerGame/5], and is deterministic (equal inputs give equal
outputs). -/
theorem C5_feature_vector (s : PlayerStats) :
    (normalize_stats s).length = 10 ∧
    normalize_stats s =
      [ s.ppg / 30, s.apg / 10, s.rpg / 12, s.fgPct, s.ftPct,
        (s.gamesPlayed : ℚ) / 82, s.minutesPerGame / 48,
        s.stealsPerGame / 3, s.blocksPerGame / 3, s.turnoversPerGame / 5 ] ∧
    ∀ s₂ : PlayerStats, s = s₂ → normalize_stats s = normalize_stats s₂ :=
  ⟨rfl, rfl, fun _ h => h ▸ rfl⟩

/-- A sample pydantic `PlayerStats` (optional fields at their
defaults). -/
def samplePlayerStats : PlayerStats :=
  { ppg := 27, apg := 7, rpg := 8, gamesPlayed := 70 }

/-- Witness for C5 at a concrete input. -/
theorem C5_feature_vector_witness :
    (normalize_stats samplePlayerStats).length = 10 ∧
    normalize_stats samplePlayerStats = normalize_stats samplePlayerStats :=
  ⟨(C5_feature_vector samplePlayerStats).1,
   (C5_feature_vector samplePlayerStats).2.2 samplePlayerStats rfl⟩

/-! ## Claim C6 — confidence formula -/

/-- A pydantic `PlayerStats` with a negative games-played count; Python
`int` is signed and the model carries no bound, so this value passes
validation. -/
def negGamesStats : PlayerStats :=
  { ppg := 10, apg := 2, rpg := 3, gamesPlayed := -82 }

/-- C6 counterexample: the claim asserts the confidence lies in
[0.70, 0.95] for every `PlayerStats` input, but at
`gamesPlayed = -82` the scoring function returns
min(0.95, 0.7 - 0.25) = 0.45 < 0.70. -/
theorem C6_confidence_counterexample :
    (predict_performance (fun _ => (0, 0, 0)) negGamesStats true).2.2.2 < 0.7 := by
  norm_num [predict_performance, confidence_of, negGamesStats]

/-- C6 (amended): the confidence returned by the scoring function
equals min(0.95, 0.7 + (gamesPlayed/82)·0.25) and is monotonically
non-decreasing in `gamesPlayed`; its value lies in [0.70, 0.95] for
every non-negative `gamesPlayed` (Python admits negative ints, for
which the value drops below 0.70), with 0.70 attained at zero games
played. -/
theorem C6_confidence_amended :
    (∀ (model : Model) (s : PlayerStats) (home : Bool),
        (predict_performance model s home).2.2.2 = confidence_of s.gamesPlayed) ∧
    (∀ g : ℤ, confidence_of g = min 0.95 (0.7 + ((g : ℚ) / 82) * 0.25)) ∧
    (∀ g₁ g₂ : ℤ, g₁ ≤ g₂ → confidence_of g₁ ≤ confidence_of g₂) ∧
    (∀ g : ℤ, 0 ≤ g → 0.7 ≤ confidence_of g ∧ confidence_of g ≤ 0.95) ∧
    confidence_of 0 = 0.7 := by
  refine ⟨fun _ _ _ => rfl, fun _ => rfl, ?_, ?_, ?_⟩
  · intro g₁ g₂ h
    unfold confidence_of
    refine min_le_min le_rfl ?_
    have hc : (g₁ : ℚ) ≤ (g₂ : ℚ) := by exact_mod_cast h
    linarith
  · intro g hg
    have hc : (0 : ℚ) ≤ (g : ℚ) := by exact_mod_cast hg
    unfold confidence_of
    constructor
    · refine le_min (by norm_num) ?_
      nlinarith
    · exact min_le_left _ _
  · norm_num [confidence_of]

/-- Witness for C6 (amended) at concrete inputs. -/
theorem C6_confidence_amended_witness :
    confidence_of 0 ≤ confidence_of 82 ∧
    (0.7 ≤ confidence_of 82 ∧ confidence_of 82 ≤ 0.95) :=
  ⟨C6_confidence_amended.2.2.1 0 82 (by norm_num),
   C6_confidence_amended.2.2.2.1 82 (by norm_num)⟩

/-! ## Claim C8 — defaults in the upstream-to-model conversion -/

/-- An upstream mapping that does provide `fgPct` (and a couple of the
other "defaultable" keys). -/
def statsWithFgPct : StatsData :=
  { ppg := some 20, gamesPlayed := some 50,
    fgPct := some 0.6, minutesPerGame := some 38 }

/-- C8 counterexample: the claim says the orchestrator uses the
upstream-provided value when a defaultable field is present; but
`_convert_stats_to_model_input` passes the literal constants
unconditionally, so an upstream `fgPct = 0.6` (and
`minutesPerGame = 38`) is discarded in favour of 0.45 (and 30.0). -/
theorem C8_defaults_counterexample :
    statsWithFgPct.fgPct = some 0.6 ∧
    (convert_stats_to_model_input statsWithFgPct).fgPct ≠ 0.6 ∧
    (convert_stats_to_model_input statsWithFgPct).fgPct = 0.45 ∧
    (convert_stats_to_model_input statsWithFgPct).minutesPerGame = 30 := by
  refine ⟨rfl, ?_, rfl, rfl⟩
  norm_num [convert_stats_to_model_input]

/-- C8 (amended): the `PlayerStats` the orchestrator builds from the
upstream mapping always carries the constants fgPct=0.45, ftPct=0.75,
minutesPerGame=30.0, stealsPerGame=1.0, blocksPerGame=0.5,
turnoversPerGame=2.0 — whether or not the upstream mapping supplies
those fields — and takes ppg/apg/rpg/gamesPlayed from the mapping with
fallback 0. -/
theorem C8_defaults_amended (d : StatsData) :
    (convert_stats_to_model_input d).fgPct = 0.45 ∧
    (convert_stats_to_model_input d).ftPct = 0.75 ∧
    (convert_stats_to_model_input d).minutesPerGame = 30 ∧
    (convert_stats_to_model_input d).stealsPerGame = 1 ∧
    (convert_stats_to_model_input d).blocksPerGame = 0.5 ∧
    (convert_stats_to_model_input d).turnoversPerGame = 2 ∧
    (convert_stats_to_model_input d).ppg = d.ppg.getD 0 ∧
    (convert_stats_to_model_input d).apg = d.apg.getD 0 ∧
    (convert_stats_to_model_input d).rpg = d.rpg.getD 0 ∧
    (convert_stats_to_model_input d).gamesPlayed = d.gamesPlayed.getD 0 :=
  ⟨rfl, rfl, rfl, rfl, rfl, rfl, rfl, rfl, rfl, rfl⟩

/-! ## Claim C7 — cache round-trip, expiry and key normalization -/

/-- Names with equal lowercasing map to the same cache key. -/
theorem cache_key_congr {name name' : String} (h : lowerStr name' = lowerStr name) :
    cache_key name' = cache_key name := by
  unfold cache_key
  rw [h]

/-- A fresh `setex` is visible to `get` under any equivalent key while
the TTL has not elapsed. -/
theorem cache_get_set_hit (store : CacheStore) (now t : Nat) (name name' : String)
    (r : PredictionRecord) (h : lowerStr name' = lowerStr name)
    (ht : t < now + CACHE_TTL) :
    cache_get (cache_set store now name r) t name' = some r := by
  unfold cache_get cache_set
  rw [cache_key_congr h]
  simp [List.find?_cons, ht]

/-- After the TTL has elapsed the entry written by `setex` is gone. -/
theorem cache_get_set_expired (store : CacheStore) (now t : Nat) (name name' : String)
    (r : PredictionRecord) (h : lowerStr name' = lowerStr name)
    (ht : now + CACHE_TTL ≤ t) :
    cache_get (cache_set store now name r) t name' = none := by
  unfold cache_get cache_set
  rw [cache_key_congr h]
  simp [List.find?_cons, Nat.not_lt.mpr ht]

/-- `delete` removes the entry under any equivalent key. -/
theorem cache_get_delete (store : CacheStore) (t : Nat) (name name' : String)
    (h : lowerStr name' = lowerStr name) :
    cache_get (cache_delete store name) t name' = none := by
  unfold cache_get cache_delete
  rw [cache_key_congr h]
  have hnone : (store.filter fun e => e.1 ≠ cache_key name).find?
      (fun e => e.1 = cache_key name) = none := by
    rw [List.find?_eq_none]
    intro x hx
    have := List.of_mem_filter hx
    simpa using this
  rw [hnone]

/-- C7: `set(name, record)` followed by `get(name')` returns the record
whenever `lowercase(name') = lowercase(name)` and the TTL (default
3600 s) has not elapsed; after `delete(name)` or TTL expiry, `get`
misses; and "LeBron James" and "lebron james" resolve to the same cache
key. -/
theorem C7_cache_roundtrip :
    (∀ (store : CacheStore) (now t : Nat) (name name' : String) (r : PredictionRecord),
        lowerStr name' = lowerStr name → t < now + CACHE_TTL →
        cache_get (cache_set store now name r) t name' = some r) ∧
    (∀ (store : CacheStore) (now t : Nat) (name name' : String) (r : PredictionRecord),
        lowerStr name' = lowerStr name → now + CACHE_TTL ≤ t →
        cache_get (cache_set store now name r) t name' = none) ∧
    (∀ (store : CacheStore) (t : Nat) (name name' : String),
        lowerStr name' = lowerStr name →
        cache_get (cache_delete store name) t name' = none) ∧
    cache_key "LeBron James" = cache_key "lebron james" :=
  ⟨cache_get_set_hit, cache_get_set_expired, cache_get_delete, by decide⟩

/-- A sample prediction record for cache witnesses. -/
def sampleRecord : PredictionRecord :=
  { player_name := "LeBron James", pts := 25.3, ast := 7.1, reb := 8.2,
    confidence := 0.91, created_at := 0 }

/-- Witness for C7 at concrete inputs. -/
theorem C7_cache_roundtrip_witness :
    cache_get (cache_set [] 0 "LeBron James" sampleRecord) 10 "lebron james" = some sampleRecord ∧
    cache_get (cache_set [] 0 "LeBron James" sampleRecord) 3600 "lebron james" = none ∧
    cache_get (cache_delete [(cache_key "LeBron James", sampleRecord, 3600)] "LeBron James")
      10 "LeBron James" = none :=
  ⟨C7_cache_roundtrip.1 [] 0 10 "LeBron James" "lebron james" sampleRecord (by decide)
      (by norm_num [CACHE_TTL]),
   C7_cache_roundtrip.2.1 [] 0 3600 "LeBron James" "lebron james" sampleRecord (by decide)
      (by norm_num [CACHE_TTL]),
   C7_cache_roundtrip.2.2.1 [(cache_key "LeBron James", sampleRecord, 3600)] 10
      "LeBron James" "LeBron James" rfl⟩

/-! ## Orchestrator lemmas shared by claims C3, C4 and C10 -/

/-- A non-forced request that hits the cache returns the cached record
untouched: no fetch, no database write, no cache write. -/
theorem generate_hit (env : Env) (now : Nat) (st : St) (name : String)
    (r : PredictionRecord) (h : cache_get st.cache now name = some r) :
    generate_prediction_for_player env now st name false =
      (.ok (some r), st, ⟨0, 0, 0⟩) := by
  unfold generate_prediction_for_player
  rw [h]

/-- The fetch path performs exactly one upstream stats fetch. -/
theorem generate_fetch_one_fetch (env : Env) (now : Nat) (st : St) (name : String) :
    (generate_fetch env now st name).2.2.statsFetches = 1 := by
  unfold generate_fetch
  cases hu : env.upstream with
  | error e => rfl
  | ok o =>
    cases o with
    | none => rfl
    | some d =>
      by_cases hdb : env.dbInsertOk <;> simp [hdb]

/-- Inversion: the fetch path succeeds with a record exactly when the
upstream returned data and the insert succeeded; the record is the one
scored with `home_game = true`, it is appended to the table and cached,
and the effects are one fetch, one database write, one cache write. -/
theorem generate_fetch_success_inv (env : Env) (now : Nat) (st : St) (name : String)
    (r : PredictionRecord) (st' : St) (eff : Effects)
    (h : generate_fetch env now st name = (.ok (some r), st', eff)) :
    ∃ d, env.upstream = .ok (some d) ∧ env.dbInsertOk = true ∧
      r = build_prediction_record env.model name now (convert_stats_to_model_input d) true ∧
      st' = ⟨cache_set st.cache now name r, st.db ++ [r]⟩ ∧
      eff = ⟨1, 1, 1⟩ := by
  unfold generate_fetch at h
  cases hu : env.upstream with
  | error e => rw [hu] at h; exact absurd h (by simp)
  | ok o =>
    cases o with
    | none => rw [hu] at h; exact absurd h (by simp)
    | some d =>
      rw [hu] at h
      by_cases hdb : env.dbInsertOk
      · simp only [hdb, if_true, Prod.mk.injEq, Except.ok.injEq, Option.some.injEq] at h
        obtain ⟨h₁, h₂, h₃⟩ := h
        refine ⟨d, rfl, hdb, h₁.symm, ?_, h₃.symm⟩
        rw [← h₂, h₁]
      · simp [hdb] at h

/-- The fetch path with upstream data but a failing insert: error
surfaced, state unchanged, one fetch and nothing written. -/
theorem generate_fetch_db_failure (env : Env) (now : Nat) (st : St) (name : String)
    (d : StatsData) (hup : env.upstream = .ok (some d))
    (hdb : env.dbInsertOk = false) :
    generate_fetch env now st name = (.error .dbError, st, ⟨1, 0, 0⟩) := by
  unfold generate_fetch
  rw [hup, hdb]
  simp

/-! ## Claim C3 — persist failure leaves no partial state -/

/-- C3: whenever a request reaches the persist step (it was forced or
the cache missed, and the upstream returned data) and the database
insert of the new `PredictionRecord` fails, the orchestrator surfaces
the error to its caller — it does not return a success — performs no
cache write, and leaves both the cache and the stored table exactly as
they were (the transaction is rolled back). -/
theorem C3_persist_failure_no_partial_state (env : Env) (now : Nat) (st : St)
    (name : String) (force : Bool) (d : StatsData)
    (hup : env.upstream = .ok (some d))
    (hdb : env.dbInsertOk = false)
    (hreach : force = true ∨ cache_get st.cache now name = none) :
    generate_prediction_for_player env now st name force =
      (.error .dbError, st, ⟨1, 0, 0⟩) := by
  have hfetch := generate_fetch_db_failure env now st name d hup hdb
  rcases hreach with h | h
  · subst h
    unfold generate_prediction_for_player
    exact hfetch
  · cases force
    · unfold generate_prediction_for_player
      rw [h]
      exact hfetch
    · unfold generate_prediction_for_player
      exact hfetch

/-- Environment whose database insert fails. -/
def failEnv : Env :=
  { upstream := .ok (some sampleStats),
    model := fun _ => (0.5, 0.4, 0.3),
    dbInsertOk := false }

/-- Witness for C3 at a concrete forced request. -/
theorem C3_persist_failure_witness :
    generate_prediction_for_player failEnv 0 ⟨[], []⟩ "LeBron James" true =
      (.error .dbError, ⟨[], []⟩, ⟨1, 0, 0⟩) :=
  C3_persist_failure_no_partial_state failEnv 0 ⟨[], []⟩ "LeBron James" true
    sampleStats rfl rfl (Or.inl rfl)

/-! ## Claim C4 — cache-hit frame conditions, force-refresh, idempotence -/

/-- C4: a non-forced request served from an unexpired cache entry
returns the cached record with no upstream fetch, no database write and
no cache write; a forced request always performs exactly one upstream
fetch regardless of cache state; and starting from a cold cache, two
consecutive non-forced calls within the TTL whose first call succeeds
return the identical record and perform exactly one upstream fetch
between them (one on the first call, none on the second). -/
theorem C4_cache_orchestration :
    (∀ (env : Env) (now : Nat) (st : St) (name : String) (r : PredictionRecord),
        cache_get st.cache now name = some r →
        generate_prediction_for_player env now st name false =
          (.ok (some r), st, ⟨0, 0, 0⟩)) ∧
    (∀ (env : Env) (now : Nat) (st : St) (name : String),
        (generate_prediction_for_player env now st name true).2.2.statsFetches = 1) ∧
    (∀ (env : Env) (now t : Nat) (st st₁ : St) (name : String)
        (r : PredictionRecord) (e₁ : Effects),
        cache_get st.cache now name = none →
        generate_prediction_for_player env now st name false = (.ok (some r), st₁, e₁) →
        t < now + CACHE_TTL →
        generate_prediction_for_player env t st₁ name false =
          (.ok (some r), st₁, ⟨0, 0, 0⟩) ∧
        e₁.statsFetches = 1) := by
  refine ⟨generate_hit, ?_, ?_⟩
  · intro env now st name
    have : generate_prediction_for_player env now st name true =
        generate_fetch env now st name := by
      unfold generate_prediction_for_player
      rfl
    rw [this]
    exact generate_fetch_one_fetch env now st name
  · intro env now t st st₁ name r e₁ hmiss hrun ht
    have hrun' : generate_fetch env now st name = (.ok (some r), st₁, e₁) := by
      unfold generate_prediction_for_player at hrun
      rw [hmiss] at hrun
      exact hrun
    obtain ⟨d, _, _, _, hst₁, heff⟩ := generate_fetch_success_inv env now st name r st₁ e₁ hrun'
    have hcached : cache_get st₁.cache t name = some r := by
      rw [hst₁]
      exact cache_get_set_hit st.cache now t name name r rfl ht
    exact ⟨generate_hit env t st₁ name r hcached, by rw [heff]⟩

/-- Environment whose upstream and database both succeed. -/
def okEnv : Env :=
  { upstream := .ok (some sampleStats),
    model := fun _ => (0.5, 0.4, 0.3),
    dbInsertOk := true }

/-- The record the successful environment generates for "LeBron James"
at time 0. -/
def genRecord : PredictionRecord :=
  build_prediction_record okEnv.model "LeBron James" 0
    (convert_stats_to_model_input sampleStats) true

/-- The state after that successful generation from empty stores. -/
def genSt : St :=
  ⟨cache_set [] 0 "LeBron James" genRecord, [genRecord]⟩

/-- Witness for C4 at concrete inputs: a cache hit, a forced fetch, and
the two-call idempotence scenario from a cold start. -/
theorem C4_cache_orchestration_witness :
    (generate_prediction_for_player okEnv 0
        ⟨cache_set [] 0 "LeBron James" sampleRecord, []⟩ "LeBron James" false =
      (.ok (some sampleRecord), ⟨cache_set [] 0 "LeBron James" sampleRecord, []⟩, ⟨0, 0, 0⟩)) ∧
    ((generate_prediction_for_player okEnv 0 ⟨[], []⟩ "LeBron James" true).2.2.statsFetches = 1) ∧
    (generate_prediction_for_player okEnv 5 genSt "LeBron James" false =
        (.ok (some genRecord), genSt, ⟨0, 0, 0⟩) ∧
      (⟨1, 1, 1⟩ : Effects).statsFetches = 1) :=
  ⟨C4_cache_orchestration.1 okEnv 0 ⟨cache_set [] 0 "LeBron James" sampleRecord, []⟩
      "LeBron James" sampleRecord
      (cache_get_set_hit [] 0 0 "LeBron James" "LeBron James" sampleRecord rfl
        (by norm_num [CACHE_TTL])),
   C4_cache_orchestration.2.1 okEnv 0 ⟨[], []⟩ "LeBron James",
   C4_cache_orchestration.2.2 okEnv 0 5 ⟨[], []⟩ genSt "LeBron James" genRecord
      ⟨1, 1, 1⟩ rfl rfl (by norm_num [CACHE_TTL])⟩

/-! ## Claim C10 — home-game flag -/

/-- Any record the orchestrator generates and stores (one database
write) carries the 1.05 home factor on all three denormalized outputs:
the scoring call at prediction_service.py line 97 hardcodes
`home_game=True`. -/
theorem generated_record_home_factor (env : Env) (now : Nat) (st : St) (name : String)
    (force : Bool) (r : PredictionRecord) (st' : St) (eff : Effects) (d : StatsData)
    (hup : env.upstream = .ok (some d))
    (hrun : generate_prediction_for_player env now st name force =
      (.ok (some r), st', eff))
    (hstored : eff.dbWrites = 1) :
    r.pts = roundTo 1
        ((env.model (normalize_stats (convert_stats_to_model_input d))).1 * 30 * 1.05) ∧
    r.ast = roundTo 1
        ((env.model (normalize_stats (convert_stats_to_model_input d))).2.1 * 10 * 1.05) ∧
    r.reb = roundTo 1
        ((env.model (normalize_stats (convert_stats_to_model_input d))).2.2 * 12 * 1.05) := by
  have hfetch : generate_fetch env now st name = (.ok (some r), st', eff) := by
    cases force with
    | true =>
        unfold generate_prediction_for_player at hrun
        exact hrun
    | false =>
        unfold generate_prediction_for_player at hrun
        cases hc : cache_get st.cache now name with
        | none => rw [hc] at hrun; exact hrun
        | some r₀ =>
            rw [hc] at hrun
            exfalso
            have heff : eff = ⟨0, 0, 0⟩ := (congrArg (fun p => p.2.2) hrun).symm
            rw [heff] at hstored
            exact absurd hstored (by simp)
  obtain ⟨d', hup', _, hr, _, _⟩ := generate_fetch_success_inv env now st name r st' eff hfetch
  have hd : d' = d := by
    rw [hup] at hup'
    injection hup' with h₁
    injection h₁ with h₂
    exact h₂.symm
  subst hd
  subst hr
  refine ⟨?_, ?_, ?_⟩ <;>
    simp [build_prediction_record, predict_performance]

/-- C10: every prediction the orchestrator generates and stores —
including the forced runs triggered by the refresh endpoint and by
watchlist events, both of which call the orchestrator with
`force_refresh=True` — is scored with `homeGame = true`, so the 1.05
home factor multiplies the denormalized points, assists and rebounds
regardless of actual game context; the direct `/predict` and
`/predict/batch` endpoints are the only ones that honor a
caller-supplied `homeGame` flag. -/
theorem C10_home_game_always_true :
    (∀ (env : Env) (now : Nat) (st : St) (name : String) (force : Bool)
        (r : PredictionRecord) (st' : St) (eff : Effects) (d : StatsData),
        env.upstream = .ok (some d) →
        generate_prediction_for_player env now st name force = (.ok (some r), st', eff) →
        eff.dbWrites = 1 →
        r.pts = roundTo 1
            ((env.model (normalize_stats (convert_stats_to_model_input d))).1 * 30 * 1.05) ∧
        r.ast = roundTo 1
            ((env.model (normalize_stats (convert_stats_to_model_input d))).2.1 * 10 * 1.05) ∧
        r.reb = roundTo 1
            ((env.model (normalize_stats (convert_stats_to_model_input d))).2.2 * 12 * 1.05)) ∧
    (∀ (env : Env) (now : Nat) (st : St) (name : String)
        (r : PredictionRecord) (st' : St) (eff : Effects) (d : StatsData),
        env.upstream = .ok (some d) →
        refresh_player_prediction env now st name = (.ok (some r), st', eff) →
        eff.dbWrites = 1 →
        r.pts = roundTo 1
            ((env.model (normalize_stats (convert_stats_to_model_input d))).1 * 30 * 1.05)) ∧
    (∀ (model : Model) (req : PredictionRequest),
        (predict_endpoint model req).predictedPoints =
          roundTo 1 ((model (normalize_stats req.currentStats)).1 * 30 *
            (if req.homeGame then 1.05 else 0.95))) ∧
    (∀ (model : Model) (reqs : List PredictionRequest) (req : PredictionRequest),
        req ∈ reqs → predict_endpoint model req ∈ predict_batch model reqs) := by
  refine ⟨generated_record_home_factor, ?_, ?_, ?_⟩
  · intro env now st name r st' eff d hup hrun hstored
    exact (generated_record_home_factor env now
      ⟨cache_delete st.cache name, st.db⟩ name true r st' eff d hup hrun hstored).1
  · intro model req
    cases hg : req.homeGame <;>
      simp [predict_endpoint, predict_performance, hg]
  · intro model reqs req hmem
    exact List.mem_map_of_mem (predict_endpoint model) hmem

/-- Witness for C10 at concrete inputs: the forced generation from
`okEnv`, a refresh, and a direct request with `homeGame = false`. -/
theorem C10_home_game_witness :
    (genRecord.pts = roundTo 1
        ((okEnv.model (normalize_stats (convert_stats_to_model_input sampleStats))).1
          * 30 * 1.05) ∧
      genRecord.ast = roundTo 1
        ((okEnv.model (normalize_stats (convert_stats_to_model_input sampleStats))).2.1
          * 10 * 1.05) ∧
      genRecord.reb = roundTo 1
        ((okEnv.model (normalize_stats (convert_stats_to_model_input sampleStats))).2.2
          * 12 * 1.05)) ∧
    (predict_endpoint okEnv.model
        { playerName := "LeBron James", currentStats := samplePlayerStats,
          homeGame := false }).predictedPoints =
      roundTo 1 ((okEnv.model (normalize_stats samplePlayerStats)).1 * 30 *
        (if false then 1.05 else 0.95)) ∧
    predict_endpoint okEnv.model
        { playerName := "LeBron James", currentStats := samplePlayerStats } ∈
      predict_batch okEnv.model
        [{ playerName := "LeBron James", currentStats := samplePlayerStats }] :=
  ⟨C10_home_game_always_true.1 okEnv 0 ⟨[], []⟩ "LeBron James" true genRecord genSt
      ⟨1, 1, 1⟩ sampleStats rfl rfl rfl,
   C10_home_game_always_true.2.2.1 okEnv.model
      { playerName := "LeBron James", currentStats := samplePlayerStats,
        homeGame := false },
   C10_home_game_always_true.2.2.2 okEnv.model
      [{ playerName := "LeBron James", currentStats := samplePlayerStats }]
      { playerName := "LeBron James", currentStats := samplePlayerStats }
      (List.mem_singleton.mpr rfl)⟩

/-! ## Claim C9 — game-log uniqueness invariant -/

/-- The rows pending commit after the collector's loop: the fetched
games whose (name, date) pair is absent from the committed table, in
order.  Because the session has `autoflush=False`, the duplicate check
consults `db` only — never the pending rows themselves. -/
theorem collect_pending_eq (db : List GameLogRow) (name : String) (games : List GameData)
    (acc : List GameLogRow) (n : Nat) :
    (games.foldl
        (fun acc g => if gamelog_exists db name g.date then acc
          else (acc.1 ++ [mkGameLogRow name g], acc.2 + 1)) (acc, n)).1 =
      acc ++ (games.filter
          (fun g => !gamelog_exists db name g.date)).map (mkGameLogRow name) := by
  induction games generalizing acc n with
  | nil => simp
  | cons g gs ih =>
    cases hg : gamelog_exists db name g.date with
    | true => simp [List.foldl_cons, hg, List.filter_cons, ih]
    | false => simp [List.foldl_cons, hg, List.filter_cons, ih]

/-- First fetched copy of a duplicated game line. -/
def dupGameA : GameData :=
  { date := some "2024-01-15", opponent := some "BOS", pts := some 30 }

/-- Second fetched copy with the same game date. -/
def dupGameB : GameData :=
  { date := some "2024-01-15", opponent := some "BOS", pts := some 12 }

/-- C9 counterexample: the claim says every run of
`collect_and_store_game_logs` preserves the at-most-one-row-per
(player name, game date) invariant for every fetched list, duplicates
of an already-added pair being skipped.  Starting from an empty (hence
invariant-satisfying) table, a fetched list that contains the same game
date twice commits two rows for the pair
("LeBron James", "2024-01-15"): `autoflush=False` makes the in-loop
duplicate query blind to rows added earlier in the same loop, and the
table carries no uniqueness constraint. -/
theorem C9_duplicate_date_counterexample :
    gamelog_unique ([] : List GameLogRow) ∧
    ¬ gamelog_unique
        (collect_and_store_game_logs (.ok (some [dupGameA, dupGameB]))
          [] "LeBron James").1 := by
  constructor
  · decide
  · decide

/-- C9 (amended): duplicates of an already-stored (name, date) pair are
skipped, and a run of `collect_and_store_game_logs` preserves the
uniqueness invariant provided the fetched list itself contains no two
games with the same date; a pair duplicated inside one fetched list is
inserted twice (the duplicate check sees only committed rows), which is
what the counterexample exercises. -/
theorem C9_uniqueness_amended (db : List GameLogRow) (name : String)
    (games : List GameData)
    (hdb : gamelog_unique db)
    (hnodup : (games.map (fun g => g.date)).Nodup) :
    gamelog_unique (collect_and_store_game_logs (.ok (some games)) db name).1 := by
  have hres : (collect_and_store_game_logs (.ok (some games)) db name).1 =
      db ++ (games.filter
        (fun g => !gamelog_exists db name g.date)).map (mkGameLogRow name) := by
    show (db ++ _, _).1 = _
    rw [collect_pending_eq db name games [] 0]
    simp
  rw [hres]
  unfold gamelog_unique at hdb ⊢
  rw [List.pairwise_append]
  refine ⟨hdb, ?_, ?_⟩
  · rw [List.pairwise_map]
    have h₁ : ((games.filter (fun g => !gamelog_exists db name g.date)).map
        (fun g => g.date)).Nodup :=
      hnodup.sublist ((List.filter_sublist games).map (fun g => g.date))
    have h₂ := List.pairwise_map.mp h₁
    exact h₂.imp (fun hne hc => hne hc.2)
  · intro a ha b hb
    obtain ⟨g, hg, rfl⟩ := List.mem_map.mp hb
    have hgf := List.mem_filter.mp hg
    have hex : gamelog_exists db name g.date = false := by
      simpa using hgf.2
    rintro ⟨hname, hdate⟩
    unfold gamelog_exists at hex
    rw [List.any_eq_false] at hex
    exact hex a ha (by simp [mkGameLogRow] at hname hdate; simp [hname, hdate])

/-- A fetched game line. -/
def gameA : GameData := { date := some "2024-01-15", pts := some 30 }

/-- A fetched game line with a different date. -/
def gameC : GameData := { date := some "2024-01-17", pts := some 25 }

/-- Witness for C9 (amended) at a concrete distinct-date fetch into an
empty table. -/
theorem C9_uniqueness_amended_witness :
    gamelog_unique
      (collect_and_store_game_logs (.ok (some [gameA, gameC])) [] "LeBron James").1 :=
  C9_uniqueness_amended [] "LeBron James" [gameA, gameC] (by decide) (by decide)

end BballPrediction


